import Mathlib

/-!
Shallow embedding of the agent-invocation program in src/main.py.

Python exceptions are modelled with Except String (the exception message);
async is irrelevant to the claims (one suspension point, no shared mutable
state) and is elided; the generative backend (genai GenerativeModel.generate_content
composed with the response.text accessor, either of which may raise) is an
opaque parameter of type Backend. Counters instrument how many times the
guardrail predicate and the backend are invoked, mirroring the control flow
of the source exactly.
-/

set_option autoImplicit false

/-- One entry of a conversation, mimicking the dict {"role": ..., "content": ...}
of the OpenAI SDK message shape read by GeminiModel.generate. -/
structure Message where
  role : String
  content : String
deriving Repr, DecidableEq

/-- The prompt argument of GeminiModel.generate: a dict that may or may not
have a "messages" key. prompt.get with default [{}] is modelled by
Option.getD with default [⟨"", ""⟩] (the empty dict has no "content" key,
so .get yields the default ""). -/
structure Prompt where
  messages : Option (List Message)
deriving Repr, DecidableEq

/-- A tool descriptor; the core only tests presence, never calls one. -/
structure Tool where
  name : String
deriving Repr, DecidableEq

/-- The WebSearchTool instance declared by research_agent (src/main.py line 102). -/
def WebSearchTool : Tool := ⟨"WebSearchTool"⟩

/-- The generation_config dict passed to the backend (src/main.py lines 45-48). -/
structure GenerationConfig where
  max_output_tokens : Nat
  temperature : Rat
deriving Repr, DecidableEq

/-- The opaque backend capability: genai generate_content at a prompt string and
config, composed with the response.text accessor; either may raise, which the
Except models. -/
abbrev Backend := String → GenerationConfig → Except String String

/-- CustomGuardrail (src/main.py lines 17-27): a named predicate with a
failure message. -/
structure CustomGuardrail where
  name : String
  description : String
  validate : String → Bool
  error_message : String

/-- CustomGuardrail.apply (src/main.py lines 24-27): if not validate(input_str)
raise ValueError(error_message) else return input_str. -/
def CustomGuardrail.apply (g : CustomGuardrail) (input_str : String) : Except String String :=
  if g.validate input_str then Except.ok input_str else Except.error g.error_message

/-- Sequential application of guardrail rules, chaining each rule via
CustomGuardrail.apply on the previous result (apply is an identity
pass-through on success, which is what enables this chaining). The second
component counts how many predicates were evaluated: apply evaluates
validate exactly once, and the chain stops at the first failure. -/
def applyChain : List CustomGuardrail → String → Except String String × Nat
  | [], q => (Except.ok q, 0)
  | g :: gs, q =>
    match g.apply q with
    | Except.error e => (Except.error e, 1)
    | Except.ok q' =>
      match applyChain gs q' with
      | (res, n) => (res, n + 1)

/-- GeminiModel configuration (src/main.py lines 30-35): model name plus the
fixed max_tokens = 1000 and temperature = 0.5. The api_key / client
construction is external credential glue. -/
structure GeminiModel where
  model_name : String
  max_tokens : Nat := 1000
  temperature : Rat := 1/2

/-- The returned payload shape {"choices": [{"message": {"content": ...}}]}
(src/main.py line 50). -/
structure ChoiceMessage where
  content : String
deriving Repr, DecidableEq

structure Choice where
  message : ChoiceMessage
deriving Repr, DecidableEq

structure Payload where
  choices : List Choice
deriving Repr, DecidableEq

/-- Line 40: content = prompt.get("messages", [{}])[-1].get("content", "").
Indexing [-1] on an empty list raises IndexError("list index out of range"). -/
def effectiveContent (prompt : Prompt) : Except String String :=
  match (prompt.messages.getD [⟨"", ""⟩]).getLast? with
  | none => Except.error "list index out of range"
  | some m => Except.ok m.content

/-- Line 41: the truthiness-plus-isinstance test "tools and isinstance(tools, list)".
tools defaults to None; a list is truthy exactly when non-empty. -/
def toolsNonempty : Option (List Tool) → Bool
  | some (_ :: _) => true
  | _ => false

/-- The fixed advisory sentence appended at line 42. -/
def advisory : String := "\nNote: Use web search tool if required."

/-- Lines 40-42: the prompt text actually sent to the backend: the effective
content of the last conversation entry, with the advisory appended when
tools is a non-empty list. -/
def sentContent (prompt : Prompt) (tools : Option (List Tool)) : Except String String :=
  (effectiveContent prompt).map fun c =>
    if toolsNonempty tools then c ++ advisory else c

/-- GeminiModel.generate (src/main.py lines 37-52). The whole body is inside
try/except Exception, which re-raises any failure as
Exception("Gemini API error: " + str(e)). The second component counts backend
invocations (0 when extraction already failed, 1 otherwise). -/
def GeminiModel.generate (self : GeminiModel) (backend : Backend) (prompt : Prompt)
    (tools : Option (List Tool)) : Except String Payload × Nat :=
  match sentContent prompt tools with
  | Except.error e => (Except.error ("Gemini API error: " ++ e), 0)
  | Except.ok c =>
    match backend c ⟨self.max_tokens, self.temperature⟩ with
    | Except.ok t => (Except.ok ⟨[⟨⟨t⟩⟩]⟩, 1)
    | Except.error e => (Except.error ("Gemini API error: " ++ e), 1)

/-- Python str.strip(): drop whitespace from both ends of the character
sequence. -/
def stripChars (l : List Char) : List Char :=
  ((l.dropWhile Char.isWhitespace).reverse.dropWhile Char.isWhitespace).reverse

/-- input_guardrail (src/main.py lines 84-89): validate is
lambda x: bool(x.strip()), i.e. the query is non-empty after stripping
surrounding whitespace. -/
def input_guardrail : CustomGuardrail :=
  { name := "InputValidation"
    description := "Ensure the query is not empty"
    validate := fun x => !(stripChars x.data).isEmpty
    error_message := "Error: Query cannot be empty." }

/-- An Agent (constructed via the agents SDK at src/main.py lines 92-103):
a name, a model adapter, role instructions and declared tools (default []). -/
structure Agent where
  name : String
  model : GeminiModel
  instructions : String
  tools : List Tool := []

/-- weather_instructions (src/main.py lines 63-77), the triple-quoted literal. -/
def weather_instructions : String :=
  "\nYou are a helpful Weather Assistant AI. Your purpose is to provide accurate and useful weather information to users.\n\nWhen responding to queries:\n1. Always ask for the user\x27s location if not provided\n2. Provide current weather conditions including temperature, humidity, and precipitation chance\n3. Include a short forecast for the next 24 hours\n4. For longer forecasts, summarize key weather patterns\n5. Alert users to any severe weather warnings in their area\n6. Answer weather-related questions clearly and concisely\n7. Use friendly, conversational language\n8. If you don\x27t have data for a specific location, acknowledge this limitation\n9. Suggest appropriate clothing or activities based on weather conditions when relevant\n10. Cite your weather data source when providing information\n"

/-- research_instructions (src/main.py lines 79-81). -/
def research_instructions : String :=
  "\nYou are a research assistant. Use the web search tool to find accurate and up-to-date information to answer user queries. Provide concise and relevant responses.\n"

/-- weather_agent (src/main.py lines 92-96): no declared tools. -/
def weather_agent : Agent :=
  { name := "WeatherAssistant"
    model := { model_name := "gemini-2.0-flash" }
    instructions := weather_instructions }

/-- research_agent (src/main.py lines 98-103): declares the WebSearchTool. -/
def research_agent : Agent :=
  { name := "ResearchAgent"
    model := { model_name := "gemini-2.0-flash" }
    instructions := research_instructions
    tools := [WebSearchTool] }

/-- Modelled from the spec: Agent.build_conversation lives in the external
agents SDK, not in src/. Spec section 4.3: prepend the instruction text as a
system-role entry when non-empty, then append the query as a user-role entry. -/
def Agent.build_conversation (agent : Agent) (query : String) : Prompt :=
  ⟨some ((if agent.instructions = "" then [] else [⟨"system", agent.instructions⟩]) ++
    [⟨"user", query⟩])⟩

/-- Modelled from the spec: Runner.run of the external agents SDK, not in src/.
Spec section 4.4 steps 2-3: build the conversation, call the model adapter of
the agent once with the declared tools of the agent, and on success expose the
text of the first completion entry as final_output; adapter exceptions propagate. The
second component counts backend invocations. -/
def Runner.run (agent : Agent) (backend : Backend) (query : String) :
    Except String String × Nat :=
  match agent.model.generate backend (agent.build_conversation query) (some agent.tools) with
  | (Except.ok payload, n) => (Except.ok ((payload.choices.map fun c => c.message.content).headD ""), n)
  | (Except.error e, n) => (Except.error e, n)

/-- The observable outcome of one run_agent call: the returned string, how many
times the guardrail predicate was evaluated, how many times the backend was
invoked, and whether the except-branch was taken. -/
structure RunTrace where
  result : String
  guardrailEvals : Nat
  backendCalls : Nat
  failed : Bool
deriving Repr, DecidableEq

/-- run_agent (src/main.py lines 106-114): apply input_guardrail only when
agent.name == "ResearchAgent", then await Runner.run and return its
final_output; any exception is caught and returned as
"Error running agent: " + str(e). -/
def run_agent (agent : Agent) (backend : Backend) (query : String) : RunTrace :=
  if agent.name = "ResearchAgent" then
    match input_guardrail.apply query with
    | Except.error e => ⟨"Error running agent: " ++ e, 1, 0, true⟩
    | Except.ok _ =>
      match Runner.run agent backend query with
      | (Except.ok out, n) => ⟨out, 1, n, false⟩
      | (Except.error e, n) => ⟨"Error running agent: " ++ e, 1, n, true⟩
  else
    match Runner.run agent backend query with
    | (Except.ok out, n) => ⟨out, 0, n, false⟩
    | (Except.error e, n) => ⟨"Error running agent: " ++ e, 0, n, true⟩

/-! ## Helper lemmas -/

theorem getLast?_append_singleton {α : Type} (l : List α) (a : α) :
    (l ++ [a]).getLast? = some a := by
  rw [List.getLast?_append_cons]
  rfl

theorem toolsNonempty_some (l : List Tool) : toolsNonempty (some l) = !l.isEmpty := by
  cases l <;> rfl

/-- The prompt text sent to the backend for a conversation built from a query:
the query itself, with the advisory appended exactly when the agent declares
tools. -/
theorem sent_build (agent : Agent) (q : String) :
    sentContent (agent.build_conversation q) (some agent.tools) =
      Except.ok (if agent.tools = [] then q else q ++ advisory) := by
  simp only [sentContent, effectiveContent, Agent.build_conversation, Option.getD_some,
    getLast?_append_singleton]
  cases h : agent.tools with
  | nil => simp [toolsNonempty, Except.map]
  | cons a as => simp [toolsNonempty, Except.map]

/-- One Runner.run call resolves to exactly one backend invocation at the
query-derived prompt text, with success text passed through and errors
wrapped with the Gemini API error prefix. -/
theorem runner_run_eq (agent : Agent) (backend : Backend) (q : String) :
    Runner.run agent backend q =
      match backend (if agent.tools = [] then q else q ++ advisory)
          ⟨agent.model.max_tokens, agent.model.temperature⟩ with
      | Except.ok t => (Except.ok t, 1)
      | Except.error e => (Except.error ("Gemini API error: " ++ e), 1) := by
  simp only [Runner.run, GeminiModel.generate, sent_build]
  cases backend (if agent.tools = [] then q else q ++ advisory)
      ⟨agent.model.max_tokens, agent.model.temperature⟩ <;> rfl

/-! ## Claim theorems -/

/-- C4: for every guardrail rule and query, apply returns the query unchanged
when the predicate holds, and fails carrying exactly the rule failure message
when the predicate is false; apply is a pure function of the rule and query. -/
theorem guardrail_apply_correct (g : CustomGuardrail) (q : String) :
    (g.validate q = true → g.apply q = Except.ok q) ∧
    (g.validate q = false → g.apply q = Except.error g.error_message) := by
  constructor <;> intro h <;> simp [CustomGuardrail.apply, h]

theorem guardrail_apply_correct_witness :
    input_guardrail.apply "hi" = Except.ok "hi" ∧
    input_guardrail.apply "" = Except.error "Error: Query cannot be empty." :=
  ⟨(guardrail_apply_correct input_guardrail "hi").1 (by decide),
   (guardrail_apply_correct input_guardrail "").2 (by decide)⟩

/-- C5: in a sequential chain of guardrail rules, the first rule whose
predicate fails determines the reported message, and exactly the rules up to
and including that one have their predicates evaluated (the evaluation count
is the failing index plus one, so later predicates are never called). -/
theorem guardrail_chain_short_circuits (pre : List CustomGuardrail) (r : CustomGuardrail)
    (post : List CustomGuardrail) (q : String)
    (hpre : ∀ g ∈ pre, g.validate q = true) (hr : r.validate q = false) :
    applyChain (pre ++ r :: post) q = (Except.error r.error_message, pre.length + 1) := by
  induction pre with
  | nil => simp [applyChain, CustomGuardrail.apply, hr]
  | cons g gs ih =>
    have hg : g.validate q = true := hpre g (by simp)
    have ih2 := ih fun g hmem => hpre g (by simp [hmem])
    simp [applyChain, CustomGuardrail.apply, hg, ih2]

theorem guardrail_chain_short_circuits_witness :
    applyChain [⟨"R0", "", fun _ => true, "m0"⟩, ⟨"R1", "", fun _ => false, "R1 failed"⟩,
      ⟨"R2", "", fun _ => true, "m2"⟩] "q" = (Except.error "R1 failed", 2) := by
  have h := guardrail_chain_short_circuits [⟨"R0", "", fun _ => true, "m0"⟩]
    ⟨"R1", "", fun _ => false, "R1 failed"⟩ [⟨"R2", "", fun _ => true, "m2"⟩] "q"
    (by intro g hg; rw [List.mem_singleton] at hg; subst hg; rfl) rfl
  simpa using h

/-- C1: when the guardrail applies (the agent is named ResearchAgent) and its
predicate rejects the query, run_agent returns the failure string carrying the
guardrail failure message and the backend is invoked zero times. -/
theorem run_agent_guardrail_blocks (agent : Agent) (backend : Backend) (q : String)
    (hname : agent.name = "ResearchAgent") (hq : input_guardrail.validate q = false) :
    run_agent agent backend q =
      ⟨"Error running agent: " ++ input_guardrail.error_message, 1, 0, true⟩ := by
  simp [run_agent, hname, CustomGuardrail.apply, hq]

theorem run_agent_guardrail_blocks_witness :
    run_agent research_agent (fun _ _ => Except.ok "unused") "" =
      ⟨"Error running agent: Error: Query cannot be empty.", 1, 0, true⟩ := by
  have h := run_agent_guardrail_blocks research_agent (fun _ _ => Except.ok "unused") ""
    rfl (by decide)
  simpa [input_guardrail] using h

/-- C2: when every applicable guardrail passes and the backend succeeds with
completion text t, run_agent invokes the backend exactly once and returns
exactly t (not failed). -/
theorem run_agent_success (agent : Agent) (backend : Backend) (q t : String)
    (hguard : agent.name = "ResearchAgent" → input_guardrail.validate q = true)
    (hbk : backend (if agent.tools = [] then q else q ++ advisory)
      ⟨agent.model.max_tokens, agent.model.temperature⟩ = Except.ok t) :
    run_agent agent backend q =
      ⟨t, if agent.name = "ResearchAgent" then 1 else 0, 1, false⟩ := by
  by_cases hname : agent.name = "ResearchAgent"
  · have hv := hguard hname
    simp [run_agent, hname, CustomGuardrail.apply, hv, runner_run_eq, hbk]
  · simp [run_agent, hname, runner_run_eq, hbk]

theorem run_agent_success_witness :
    run_agent weather_agent (fun _ _ => Except.ok "Sunny, 75F")
      "What is the weather in New York today?" = ⟨"Sunny, 75F", 0, 1, false⟩ := by
  have h := run_agent_success weather_agent (fun _ _ => Except.ok "Sunny, 75F")
    "What is the weather in New York today?" "Sunny, 75F"
    (fun hn => absurd hn (by decide)) rfl
  simpa using h

/-- C3 as stated is false: on a backend fault the failure string is
"Error running agent: Gemini API error: " plus the original message, which
does not contain the agent name; here the WeatherAssistant agent fails with
original message "network fault" and its name appears nowhere in the result. -/
theorem run_agent_error_drops_agent_name :
    (run_agent weather_agent (fun _ _ => Except.error "network fault")
      "What is the weather in New York today?").result =
      "Error running agent: Gemini API error: network fault" ∧
    ¬ "WeatherAssistant".data <:+:
      "Error running agent: Gemini API error: network fault".data :=
  ⟨rfl, by decide⟩

/-- C3 amended: on a backend failure with original message m (guardrails
passing), run_agent makes exactly one backend call and returns the failure
string "Error running agent: Gemini API error: " ++ m, which contains the
original message m as a substring; the agent name is not part of it. -/
theorem run_agent_backend_error_keeps_message (agent : Agent) (backend : Backend) (q m : String)
    (hguard : agent.name = "ResearchAgent" → input_guardrail.validate q = true)
    (hbk : backend (if agent.tools = [] then q else q ++ advisory)
      ⟨agent.model.max_tokens, agent.model.temperature⟩ = Except.error m) :
    run_agent agent backend q =
      ⟨"Error running agent: Gemini API error: " ++ m,
        if agent.name = "ResearchAgent" then 1 else 0, 1, true⟩ ∧
    m.data <:+: ("Error running agent: Gemini API error: " ++ m).data := by
  constructor
  · have hflat : "Error running agent: " ++ ("Gemini API error: " ++ m) =
        "Error running agent: Gemini API error: " ++ m := rfl
    by_cases hname : agent.name = "ResearchAgent"
    · have hv := hguard hname
      simp [run_agent, hname, CustomGuardrail.apply, hv, runner_run_eq, hbk, hflat]
    · simp [run_agent, hname, runner_run_eq, hbk, hflat]
  · exact ⟨"Error running agent: Gemini API error: ".data, [], by simp⟩

theorem run_agent_backend_error_keeps_message_witness :
    run_agent weather_agent (fun _ _ => Except.error "network fault")
      "What is the weather in Paris?" =
      ⟨"Error running agent: Gemini API error: network fault", 0, 1, true⟩ ∧
    "network fault".data <:+:
      "Error running agent: Gemini API error: network fault".data := by
  have h := run_agent_backend_error_keeps_message weather_agent
    (fun _ _ => Except.error "network fault") "What is the weather in Paris?" "network fault"
    (fun hn => absurd hn (by decide)) rfl
  exact ⟨by simpa using h.1, by simpa using h.2⟩

/-- C6: the content extraction of the adapter reads exactly the content of the last
conversation entry, and the prompt text sent to the backend does not depend on
any earlier entry. -/
theorem generate_reads_last_entry (ms : List Message) (m : Message)
    (tools : Option (List Tool)) :
    effectiveContent ⟨some (ms ++ [m])⟩ = Except.ok m.content ∧
    sentContent ⟨some (ms ++ [m])⟩ tools = sentContent ⟨some [m]⟩ tools := by
  constructor
  · simp [effectiveContent, getLast?_append_singleton]
  · simp [sentContent, effectiveContent, getLast?_append_singleton]

/-- C7: the advisory sentence is appended to the prompt text exactly when the
tools argument is a non-empty list; with an empty list (or the None default)
the effective content is sent unchanged. -/
theorem generate_tool_advisory (ms : List Message) (m : Message) (l : List Tool) :
    (l ≠ [] → sentContent ⟨some (ms ++ [m])⟩ (some l) =
      Except.ok (m.content ++ advisory)) ∧
    sentContent ⟨some (ms ++ [m])⟩ (some []) = Except.ok m.content ∧
    sentContent ⟨some (ms ++ [m])⟩ none = Except.ok m.content := by
  refine ⟨fun hl => ?_, ?_, ?_⟩
  · match l, hl with
    | t :: ts, _ =>
      simp [sentContent, effectiveContent, getLast?_append_singleton, toolsNonempty,
        Except.map]
  · simp [sentContent, effectiveContent, getLast?_append_singleton, toolsNonempty,
      Except.map]
  · simp [sentContent, effectiveContent, getLast?_append_singleton, toolsNonempty,
      Except.map]

theorem generate_tool_advisory_witness :
    sentContent ⟨some [⟨"user", "hi"⟩]⟩ (some [WebSearchTool]) =
      Except.ok "hi\nNote: Use web search tool if required." ∧
    sentContent ⟨some [⟨"user", "hi"⟩]⟩ (some []) = Except.ok "hi" := by
  have h := generate_tool_advisory [] ⟨"user", "hi"⟩ [WebSearchTool]
  exact ⟨by simpa [advisory] using h.1 (by simp), h.2.1⟩

/-- Any message produced by the generate failure wrapper starts with the
Gemini API error prefix and therefore is never the bare string
"no completion returned". -/
theorem api_prefix_ne_no_completion (m : String) :
    "Gemini API error: " ++ m ≠ "no completion returned" := by
  intro h
  have h3 : ("Gemini API error: " ++ m).data.head? = some 'G' := rfl
  rw [h] at h3
  exact absurd h3 (by decide)

/-- C8 as stated is false: the adapter has no dedicated zero-completion branch
and never produces the message "no completion returned"; when the backend
raises on an empty-completion payload (here with original message
"response contained zero completion entries"), the adapter fails with that
message behind the Gemini API error prefix instead. -/
theorem generate_zero_completion_cex :
    (GeminiModel.generate { model_name := "gemini-2.0-flash" }
        (fun _ _ => Except.error "response contained zero completion entries")
        ⟨some [⟨"user", "q"⟩]⟩ none).1 =
      Except.error "Gemini API error: response contained zero completion entries" ∧
    "Gemini API error: response contained zero completion entries" ≠
      "no completion returned" :=
  ⟨rfl, by decide⟩

/-- C8 amended: every failure of the adapter, the zero-completion backend
error included, carries the message "Gemini API error: " followed by the
original message; in particular the failure message is never the literal
"no completion returned", and no unhandled exception escapes (failures are
ordinary Except values). -/
theorem generate_error_prefixed (self : GeminiModel) (backend : Backend) (prompt : Prompt)
    (tools : Option (List Tool)) (e : String)
    (h : (self.generate backend prompt tools).1 = Except.error e) :
    ∃ m, e = "Gemini API error: " ++ m ∧ e ≠ "no completion returned" := by
  cases hs : sentContent prompt tools with
  | error e2 =>
    have hg : self.generate backend prompt tools =
        (Except.error ("Gemini API error: " ++ e2), 0) := by
      simp [GeminiModel.generate, hs]
    rw [hg] at h
    simp at h
    subst h
    exact ⟨e2, rfl, api_prefix_ne_no_completion e2⟩
  | ok c =>
    cases hb : backend c ⟨self.max_tokens, self.temperature⟩ with
    | ok t =>
      have hg : self.generate backend prompt tools =
          (Except.ok ⟨[⟨⟨t⟩⟩]⟩, 1) := by
        simp [GeminiModel.generate, hs, hb]
      rw [hg] at h
      simp at h
    | error e2 =>
      have hg : self.generate backend prompt tools =
          (Except.error ("Gemini API error: " ++ e2), 1) := by
        simp [GeminiModel.generate, hs, hb]
      rw [hg] at h
      simp at h
      subst h
      exact ⟨e2, rfl, api_prefix_ne_no_completion e2⟩

theorem generate_error_prefixed_witness :
    ∃ m, "Gemini API error: boom" = "Gemini API error: " ++ m ∧
      "Gemini API error: boom" ≠ "no completion returned" :=
  generate_error_prefixed { model_name := "gemini-2.0-flash" }
    (fun _ _ => Except.error "boom") ⟨some [⟨"user", "q"⟩]⟩ none
    "Gemini API error: boom" rfl

/-- C9: the guardrail predicate is evaluated exactly once when the agent is
named ResearchAgent and zero times otherwise, and an agent not named
ResearchAgent goes straight to the backend (exactly one backend call) for
every query, the empty query included. -/
theorem run_agent_guardrail_only_research (agent : Agent) (backend : Backend) (q : String) :
    (run_agent agent backend q).guardrailEvals =
      (if agent.name = "ResearchAgent" then 1 else 0) ∧
    (agent.name ≠ "ResearchAgent" → (run_agent agent backend q).backendCalls = 1) := by
  by_cases hname : agent.name = "ResearchAgent"
  · refine ⟨?_, fun hn => absurd hname hn⟩
    cases h1 : input_guardrail.apply q with
    | error e => simp [run_agent, hname, h1]
    | ok q2 =>
      cases h2 : Runner.run agent backend q with
      | mk r n => cases r <;> simp [run_agent, hname, h1, h2]
  · constructor
    · cases h2 : Runner.run agent backend q with
      | mk r n => cases r <;> simp [run_agent, hname, h2]
    · intro _
      simp only [run_agent, if_neg hname, runner_run_eq]
      cases backend (if agent.tools = [] then q else q ++ advisory)
          ⟨agent.model.max_tokens, agent.model.temperature⟩ <;> rfl

theorem run_agent_guardrail_only_research_witness :
    (run_agent weather_agent (fun _ _ => Except.ok "ok") "").guardrailEvals = 0 ∧
    (run_agent weather_agent (fun _ _ => Except.ok "ok") "").backendCalls = 1 := by
  have h := run_agent_guardrail_only_research weather_agent (fun _ _ => Except.ok "ok") ""
  exact ⟨h.1, h.2 (by decide)⟩

/-- C10: run_agent is total at its interface; it returns a plain string in
every case, and whenever the except-branch was taken (a guardrail or backend
exception occurred) the returned string is the exception message behind the
fixed prefix "Error running agent: ". -/
theorem run_agent_failure_prefixed (agent : Agent) (backend : Backend) (q : String) :
    (run_agent agent backend q).failed = true →
      ∃ m, (run_agent agent backend q).result = "Error running agent: " ++ m := by
  by_cases hname : agent.name = "ResearchAgent"
  · cases h1 : input_guardrail.apply q with
    | error e => exact fun _ => ⟨e, by simp [run_agent, hname, h1]⟩
    | ok q2 =>
      cases h2 : Runner.run agent backend q with
      | mk r n =>
        cases r with
        | ok out => intro hf; simp [run_agent, hname, h1, h2] at hf
        | error e => exact fun _ => ⟨e, by simp [run_agent, hname, h1, h2]⟩
  · cases h2 : Runner.run agent backend q with
    | mk r n =>
      cases r with
      | ok out => intro hf; simp [run_agent, hname, h2] at hf
      | error e => exact fun _ => ⟨e, by simp [run_agent, hname, h2]⟩

theorem run_agent_failure_prefixed_witness :
    ∃ m, (run_agent research_agent (fun _ _ => Except.ok "t") "").result =
      "Error running agent: " ++ m :=
  run_agent_failure_prefixed research_agent (fun _ _ => Except.ok "t") "" (by decide)
